import Mathlib

/-!
Verification of the zerofalse scan-orchestration and finding-reconciliation
pipeline.  The JavaScript sources are embedded shallowly: plain functions
become Lean functions, JS truthiness on optional string/number fields is made
explicit, stateful caches become explicit state passing, and code that can
throw is modelled with `Except`.  Line numbers are `Int` (JS numbers used as
integers), risk scores are `ℚ`.
-/

/-- JS `x || d` for an optional string field: `undefined` and the empty
string are falsy. -/
def jsOrS (x : Option String) (d : String) : String :=
  match x with
  | none => d
  | some s => if s = "" then d else s

/-- JS `x || d` for an optional numeric field: `undefined` and `0` are
falsy. -/
def jsOrQ (x : Option ℚ) (d : ℚ) : ℚ :=
  match x with
  | none => d
  | some v => if v = 0 then d else v

/-- JS `x || d` for an optional integer field (used for `expires_in`). -/
def jsOrI (x : Option Int) (d : Int) : Int :=
  match x with
  | none => d
  | some v => if v = 0 then d else v

/-- JS `s.includes(pat)` : substring containment on strings. -/
def containsSub (s pat : String) : Bool :=
  s.toList.tails.any (fun t => pat.toList.isPrefixOf t)

/-- JS `s.toLowerCase()` (character-wise, as in `String.toLower`). -/
def jsToLower (s : String) : String := ⟨s.toList.map Char.toLower⟩

/-- JS `s.toUpperCase()` (character-wise, as in `String.toUpper`). -/
def jsToUpper (s : String) : String := ⟨s.toList.map Char.toUpper⟩

/-- Split a character list at every occurrence of `c` (JS
`String.prototype.split` semantics: the empty string yields one empty
piece). -/
def splitOnChar (c : Char) : List Char → List (List Char)
  | [] => [[]]
  | d :: ds =>
      if d == c then [] :: splitOnChar c ds
      else
        match splitOnChar c ds with
        | h :: t => (d :: h) :: t
        | [] => [[d]]

/-- JS `code.split('\n')`. -/
def splitLines (s : String) : List String :=
  (splitOnChar (Char.ofNat 10) s.toList).map (fun l => ⟨l⟩)

/-- One detected issue, the union of the field shapes produced by the
pattern engine and the LLM gateway (absent JS fields are `none`). -/
structure Finding where
  line : Int
  type : String
  severity : String
  filename : Option String := none
  description : Option String := none
  fix : Option String := none
  issue : Option String := none
  fix_instruction : Option String := none
  confidence : Option ℚ := none
  learned : Option Bool := none
deriving Repr, DecidableEq

/-- Embeds `getBaseType` from `mergeFindings` in
`src/backend/src/config/database.js` (lines 76-82): normalize a finding
type into a coarse bucket by lowercased substring tests. -/
def getBaseType (type : String) : String :=
  let t := jsToLower type
  if containsSub t "execution" || containsSub t "eval" || containsSub t "rce"
      || containsSub t "injection" then "code_exec"
  else if containsSub t "sql" then "sql_inj"
  else if containsSub t "secret" || containsSub t "password"
      || containsSub t "key" then "credential"
  else t

/-- The duplicate test inside the `aiResults.some(...)` callback of
`mergeFindings` (`database.js` lines 88-94): line distance at most 2 and
equal normalized buckets. -/
def isDupOf (af pf : Finding) : Bool :=
  (af.line - pf.line).natAbs ≤ 2 && (getBaseType af.type == getBaseType pf.type)

/-- The object pushed for a non-duplicate pattern finding (`database.js`
lines 97-101): spread of `pf` with `issue`/`fix_instruction` defaulted from
`description`/`fix` via JS `||`. -/
def decoratePattern (pf : Finding) : Finding :=
  { pf with
    issue := some (jsOrS pf.description "Security pattern match detected.")
    fix_instruction := some (jsOrS pf.fix "Follow secure coding practices.") }

/-- Stable insertion of one element: place `x` before the first `y` it
compares `le` to, after everything else. -/
def insertBy {α : Type} (le : α → α → Bool) (x : α) : List α → List α
  | [] => [x]
  | y :: ys => if le x y then x :: y :: ys else y :: insertBy le x ys

/-- Stable sort by a boolean comparator.  A stable sort's output is
uniquely determined by the comparator and the input order, so this models
JS `Array.prototype.sort` (stable per the ECMAScript spec) exactly for the
total preorders used below. -/
def stableSortBy {α : Type} (le : α → α → Bool) : List α → List α
  | [] => []
  | x :: xs => insertBy le x (stableSortBy le xs)

/-- Comparator key of the final `merged.sort((a, b) => a.line - b.line)`:
ascending line. JS sort is stable. -/
def lineLe (a b : Finding) : Bool := a.line ≤ b.line

/-- Embeds `mergeFindings` from `src/backend/src/config/database.js`
(lines 68-107): start from the LLM findings, append each pattern finding
not covered by any LLM finding, then stable-sort by line.  The `Array.isArray`
guards are rendered by the list types themselves. -/
def mergeFindings (patternFindings llmFindings : List Finding) : List Finding :=
  stableSortBy lineLe
    (patternFindings.foldl
      (fun acc pf =>
        if llmFindings.any (fun af => isDupOf af pf) then acc
        else acc ++ [decoratePattern pf])
      llmFindings)

/-- Bucket normalization written from the words of the claim: a type
containing execution/eval/rce/injection maps to code_exec, containing sql
to sql_inj, containing secret/password/key to credential, else the
lowercase type string. -/
def specNormalize (type : String) : String :=
  let t := jsToLower type
  if containsSub t "execution" || containsSub t "eval" || containsSub t "rce"
      || containsSub t "injection" then "code_exec"
  else if containsSub t "sql" then "sql_inj"
  else if containsSub t "secret" || containsSub t "password"
      || containsSub t "key" then "credential"
  else t

/-- Coverage test written from the claim: some LLM finding lies within two
lines of `pf` and has the same normalized bucket. -/
def specCovered (llmFindings : List Finding) (pf : Finding) : Bool :=
  llmFindings.any
    (fun af =>
      (af.line - pf.line).natAbs ≤ 2
        && (specNormalize af.type == specNormalize pf.type))

/-- Appended-pattern decoration written from the claim: issue and
fix_instruction take defaults from the description and fix fields. -/
def specDecorate (pf : Finding) : Finding :=
  { pf with
    issue := some (jsOrS pf.description "Security pattern match detected.")
    fix_instruction := some (jsOrS pf.fix "Follow secure coding practices.") }

/-- The reference merge algorithm written from the words of claim C1: every
LLM finding, plus each uncovered pattern finding decorated, the whole list
stable-sorted by ascending line with LLM findings first on ties. -/
def specMerge (patternFindings llmFindings : List Finding) : List Finding :=
  stableSortBy lineLe
    (llmFindings
      ++ (patternFindings.filter (fun pf => ! specCovered llmFindings pf)).map
          specDecorate)

/-- The per-finding map applied in `scanCode` (`database.js` lines 125-129):
backfill `filename` via JS `||` and uppercase the type for display. -/
def scanDecorate (filename : String) (f : Finding) : Finding :=
  { f with
    filename := some (jsOrS f.filename filename)
    type := jsToUpper f.type }

/-- The `findings` array assembled by `scanCode` in
`src/backend/src/config/database.js` (lines 125-129): the merged list with
display decoration. -/
def scanFindings (filename : String) (patternFindings llmFindings : List Finding) :
    List Finding :=
  (mergeFindings patternFindings llmFindings).map (scanDecorate filename)

/-- The risk score computed by `scanCode` in `database.js` (line 133):
`findings.length === 0 ? 0 : (llmResult?.riskScore || 0)`. -/
def scanRiskScore (filename : String) (patternFindings llmFindings : List Finding)
    (llmRiskScore : Option ℚ) : ℚ :=
  if (scanFindings filename patternFindings llmFindings).length = 0 then 0
  else jsOrQ llmRiskScore 0

/-- Severity weight of claim C2's reference scoring formula, written from
the claim: critical 2.5, high 1.5, medium 0.7, low 0.2, else 0.5. -/
def severityWeight (s : String) : ℚ :=
  if s = "critical" then 5/2
  else if s = "high" then 3/2
  else if s = "medium" then 7/10
  else if s = "low" then 1/5
  else 1/2

/-- Base score of claim C2's reference formula: sum of severity weights
over the merged findings. -/
def specBaseScore (findings : List Finding) : ℚ :=
  (findings.map (fun f => severityWeight f.severity)).sum

/-- Round to one decimal, half away from zero upward (JS `Math.round`). -/
def roundTo1 (x : ℚ) : ℚ := (⌊x * 10 + 1/2⌋ : ℚ) / 10

/-- The risk score claim C2 asserts, written from the claim:
`max(baseScore, llmRiskScore)` clamped to `[0, 10]`, rounded to one
decimal. -/
def specRiskScore (findings : List Finding) (llmRiskScore : ℚ) : ℚ :=
  roundTo1 (min 10 (max 0 (max (specBaseScore findings) llmRiskScore)))

/-- Severity rank table of `ScannerService.mergeFindings`
(`scannerService.js` lines 249-250); keys absent from the JS object yield
`undefined`, modelled as `none`. -/
def severityOrder (s : String) : Option Int :=
  if s = "critical" then some 0
  else if s = "high" then some 1
  else if s = "medium" then some 2
  else if s = "low" then some 3
  else none

/-- Comparator of `ScannerService.mergeFindings` (lines 252-256).  An
`undefined` rank makes the JS subtraction `NaN`, which V8's sort treats as
0 (elements compare equal, stable order kept); that case is modelled as
both-directions-true. -/
def sevLe (a b : Finding) : Bool :=
  match severityOrder a.severity, severityOrder b.severity with
  | some x, some y => x ≤ y
  | _, _ => true

namespace ScannerService

/-- Embeds `ScannerService.mergeFindings` from
`src/backend/src/services/scannerService.js` (lines 235-258): keep every
LLM finding, add each pattern finding whose exact line is not among the LLM
lines (the `seen` set is built once and never updated), then stable-sort by
severity rank. -/
def mergeFindings (patternFindings llmFindings : List Finding) : List Finding :=
  stableSortBy sevLe
    (llmFindings
      ++ patternFindings.filter
          (fun pf => ! llmFindings.any (fun f => f.line == pf.line)))

end ScannerService

namespace ScannerServiceV2

/-- Embeds `ScannerService.mergeFindings` from the rewrite stored in
`src/backend/src/services/llmService.js` (lines 599-617): same line-set
dedup, but no sort at all. -/
def mergeFindings (patternFindings llmFindings : List Finding) : List Finding :=
  llmFindings
    ++ patternFindings.filter
        (fun pf => ! llmFindings.any (fun f => f.line == pf.line))

end ScannerServiceV2

/-- JS regex word character class, `\w` = `[A-Za-z0-9_]`. -/
def isWordChar (c : Char) : Bool := c.isAlpha || c.isDigit || c == '_'

/-- JS regex whitespace class `\s` (modelled by Unicode whitespace). -/
def isJsWs (c : Char) : Bool := c.isWhitespace

/-- The character class written `['"` ++ backtick ++ `]` in the JS rules:
single quote (39), double quote (34) or backtick (96). -/
def isQuote3 (c : Char) : Bool :=
  c == Char.ofNat 39 || c == Char.ofNat 34 || c == Char.ofNat 96

/-- Drop a case-sensitive literal from the front of the input, if present. -/
def dropLit : List Char → List Char → Option (List Char)
  | [], s => some s
  | _ :: _, [] => none
  | c :: w, d :: s => if c == d then dropLit w s else none

/-- Drop a case-insensitive literal (regex `/i` flag) from the front. -/
def dropLitCi : List Char → List Char → Option (List Char)
  | [], s => some s
  | _ :: _, [] => none
  | c :: w, d :: s => if c.toLower == d.toLower then dropLitCi w s else none

/-- Consume `\s*` greedily (sound because every continuation below starts
with a non-whitespace requirement). -/
def skipWs : List Char → List Char
  | [] => []
  | c :: cs => if isJsWs c then skipWs cs else c :: cs

/-- Match `\s*` followed by a literal opening parenthesis. -/
def wsParen (s : List Char) : Bool :=
  match skipWs s with
  | c :: _ => c == '('
  | [] => false

/-- Scan for a word-boundary occurrence of `w` followed by `\s*` and `(`;
`prevIsWord` tracks whether the previous character is a word character, so
`\b` holds exactly when it is false.  Implements `/\bw\s*\(/`. -/
def scanWordCall (w : List Char) : Bool → List Char → Bool
  | _, [] => false
  | prevIsWord, c :: cs =>
      (if prevIsWord then false
       else
        match dropLit w (c :: cs) with
        | some rest => wsParen rest
        | none => false)
      || scanWordCall w (isWordChar c) cs

/-- Scan for an occurrence of the literal `w` at any position, continuing
with `k` on the remainder (for regexes without a leading boundary). -/
def scanLitThen (w : List Char) (k : List Char → Bool) : List Char → Bool
  | [] => false
  | c :: cs =>
      (match dropLit w (c :: cs) with
       | some rest => k rest
       | none => false)
      || scanLitThen w k cs

/-- Scan for a case-insensitive occurrence of any literal in `ws`,
continuing with `k` on the remainder. -/
def scanAnyCiThen (ws : List (List Char)) (k : List Char → Bool) :
    List Char → Bool
  | [] => false
  | c :: cs =>
      ws.any
        (fun w =>
          match dropLitCi w (c :: cs) with
          | some rest => k rest
          | none => false)
      || scanAnyCiThen ws k cs

/-- Embeds `/\beval\s*\(/` (rule `dangerousFunctions`, part_025 line 12). -/
def regexEval (line : String) : Bool :=
  scanWordCall "eval".toList false line.toList

/-- Embeds `/\bexec\s*\(/` (part_025 line 13). -/
def regexExec (line : String) : Bool :=
  scanWordCall "exec".toList false line.toList

/-- Embeds `/\bFunction\s*\(/` (part_025 line 14). -/
def regexFunction (line : String) : Bool :=
  scanWordCall "Function".toList false line.toList

/-- Embeds `/setTimeout\s*\(\s*['"`]/` — wait for quote after the paren
(part_025 line 15). -/
def regexSetTimeout (line : String) : Bool :=
  scanLitThen "setTimeout".toList
    (fun rest =>
      match skipWs rest with
      | c :: r2 =>
          c == '('
            && (match skipWs r2 with
                | q :: _ => isQuote3 q
                | [] => false)
      | [] => false)
    line.toList

/-- Tail of the first SECRET regex after the opening quote: at least four
characters outside `[^'"]` then a closing `['"` ++ backtick ++ `]`;
`k` counts characters consumed so far.  Existence semantics of `{4,}`. -/
def secretTail : Nat → List Char → Bool
  | _, [] => false
  | k, c :: cs =>
      (decide (4 ≤ k) && isQuote3 c)
        || (!(c == Char.ofNat 39 || c == Char.ofNat 34) && secretTail (k + 1) cs)

/-- Embeds the first SECRET regex (part_025 line 25):
keyword, `\s*`, `[:=]`, `\s*`, quote, `[^'"]` repeated at least 4 times,
closing quote class, case-insensitive. -/
def regexSecretAssign (line : String) : Bool :=
  scanAnyCiThen
    (["password", "secret", "token", "apikey", "access_key",
      "private_key"].map String.toList)
    (fun rest =>
      match skipWs rest with
      | c :: r2 =>
          (c == ':' || c == '=')
            && (match skipWs r2 with
                | q :: r3 => isQuote3 q && secretTail 0 r3
                | [] => false)
      | [] => false)
    line.toList

/-- Length of the leading run of `[a-zA-Z0-9]` characters. -/
def leadingAlnum : List Char → Nat
  | [] => 0
  | c :: cs => if c.isAlpha || c.isDigit then leadingAlnum cs + 1 else 0

/-- Scanner for the second SECRET regex: a quote-class character, a
provider token marker, then at least 20 alphanumerics. -/
def secretMarkerScan : List Char → Bool
  | [] => false
  | c :: cs =>
      (isQuote3 c
        && ["ghp_", "sk_live_", "key-"].any
            (fun p =>
              match dropLitCi p.toList cs with
              | some rest => 20 ≤ leadingAlnum rest
              | none => false))
      || secretMarkerScan cs

/-- Embeds the second SECRET regex (part_025 line 27): a quote-class
character, a provider token marker, then at least 20 alphanumerics,
case-insensitive. -/
def regexSecretMarker (line : String) : Bool :=
  secretMarkerScan line.toList

/-- SQL keywords of the sqlInjection rule (part_025 lines 37-38). -/
def sqlKeywords : List (List Char) :=
  ["select", "insert", "update", "delete", "drop"].map String.toList

/-- Embeds the first SQL regex (part_025 line 37):
keyword (case-insensitive), then `.*`, a plus sign, then `.*\s*` and a
quote-class character: existence of keyword, then `+`, then quote, in
order. -/
def regexSqlConcat (line : String) : Bool :=
  scanAnyCiThen sqlKeywords
    (fun rest => scanLitThen ['+'] (fun r2 => r2.any isQuote3) rest)
    line.toList

/-- Embeds the second SQL regex (part_025 line 38): keyword, then a dollar
sign and opening brace, then a closing brace, in order (the lazy `.*?`
quantifiers do not change existence). -/
def regexSqlTemplate (line : String) : Bool :=
  scanAnyCiThen sqlKeywords
    (fun rest =>
      scanLitThen ['$', Char.ofNat 123]
        (fun r2 => r2.any (fun c => c == Char.ofNat 125)) rest)
    line.toList

/-- A pattern rule of part_025's `SECURITY_PATTERNS` table: regexes are
embedded as their decision functions on one line of text. -/
structure PatternRule where
  name : String
  severity : String
  regexes : List (String → Bool)
  languages : List String

/-- Embeds the `SECURITY_PATTERNS` table of `src/unnamed/part_025`
(lines 5-42), in object-entry order: dangerousFunctions, hardcodedSecrets,
sqlInjection. -/
def SECURITY_PATTERNS : List PatternRule :=
  [ { name := "RCE"
      severity := "critical"
      regexes := [regexEval, regexExec, regexFunction, regexSetTimeout]
      languages := ["javascript", "typescript"] },
    { name := "SECRET"
      severity := "critical"
      regexes := [regexSecretAssign, regexSecretMarker]
      languages := ["javascript", "typescript", "python", "yaml", "json"] },
    { name := "SQL_INJECTION"
      severity := "high"
      regexes := [regexSqlConcat, regexSqlTemplate]
      languages := ["javascript", "typescript", "python"] } ]

/-- One iteration of part_025's inner `lines.forEach` body for one rule
(lines 56-73): the first matching regex emits one finding for the line and
the `break` stops further regexes of that rule, so a line yields at most
one finding per rule, independent of which regex fired. -/
def ruleLineFinding (rule : PatternRule) (idx : Nat) (lineText : String) :
    Option Finding :=
  if rule.regexes.any (fun r => r lineText) then
    some
      { line := (idx : Int) + 1
        type := rule.name
        severity := rule.severity
        filename := some ""
        description := some ("Pattern match: " ++ rule.name ++ " detected.")
        fix := some
          "Verify user input sanitization or use environment variables for sensitive data."
        confidence := some 80 }
  else none

/-- All findings one rule contributes, in line order. -/
def ruleFindings (rule : PatternRule) (lines : List String) : List Finding :=
  lines.enum.filterMap (fun p => ruleLineFinding rule p.1 p.2)

/-- Embeds `quickPatternScan` of `src/unnamed/part_025` (lines 44-77),
generic in the rule table it closes over: guard empty code, split into
lines, then for each rule passing the language guard push the rule's
findings. -/
def quickPatternScanT (table : List PatternRule) (code language : String) :
    List Finding :=
  if code = "" then []
  else
    let lines := splitLines code
    let langKey := jsToLower language
    table.foldl
      (fun findings rule =>
        if ! rule.languages.contains langKey then findings
        else findings ++ ruleFindings rule lines)
      []

/-- Embeds `quickPatternScan` of `src/unnamed/part_025` applied to its own
`SECURITY_PATTERNS` table. -/
def quickPatternScan (code language : String) : List Finding :=
  quickPatternScanT SECURITY_PATTERNS code language

/-- Token of the embedded JS regexes of `src/backend/src/utils/patterns.js`
(all of which carry the `/i` flag and use no alternation groups): a
case-insensitive literal, or a character class repeated between `lo` and
`hi` times (`none` = unbounded), matched greedily with backtracking. -/
inductive RToken where
  | lit : List Char → RToken
  | cls : (Char → Bool) → Nat → Option Nat → RToken

/-- Length of the maximal prefix run of characters satisfying `p`. -/
def runLen (p : Char → Bool) : List Char → Nat
  | [] => 0
  | c :: cs => if p c then runLen p cs + 1 else 0

/-- Backtracking matcher for a token sequence anchored at the head of `s`:
returns the number of characters matched.  A class tries the longest
repetition count first and backtracks — exactly the JS engine order for
these alternation-free patterns. -/
def matchSeq : List RToken → List Char → Option Nat
  | [], _ => some 0
  | RToken.lit w :: ts, s =>
      match dropLitCi w s with
      | some rest => (matchSeq ts rest).map (fun n => n + w.length)
      | none => none
  | RToken.cls p lo hi :: ts, s =>
      let m := runLen p s
      let top := match hi with | none => m | some h => min h m
      (List.range (top + 1)).reverse.findSome?
        (fun k =>
          if k < lo then none
          else (matchSeq ts (s.drop k)).map (fun n => n + k))

/-- Leftmost match of a token sequence in `s`, returning the matched text
(JS `String.prototype.match` with a non-global regex: `matches[0]`). -/
def firstMatch (toks : List RToken) : List Char → Option (List Char)
  | [] => (matchSeq toks []).map (fun n => List.take n [])
  | s@(_ :: rest) =>
      match matchSeq toks s with
      | some n => some (s.take n)
      | none => firstMatch toks rest

/-- JS `s.indexOf(pat)`: index of the first occurrence, `none` for -1. -/
def jsIndexOf (pat : List Char) : List Char → Option Nat
  | [] => if pat.isPrefixOf ([] : List Char) then some 0 else none
  | s@(_ :: rest) =>
      if pat.isPrefixOf s then some 0
      else (jsIndexOf pat rest).map (fun i => i + 1)

/-- The line-number computation of `quickPatternScan` in `patterns.js`
(lines 97-98): `code.substring(0, code.indexOf(matches[0])).split('\n')`
then `.length` (for `indexOf` = -1, `substring(0, -1)` is empty, one
line). -/
def jsMatchLine (code matched : String) : Int :=
  match jsIndexOf matched.toList code.toList with
  | some i =>
      ((splitOnChar (Char.ofNat 10) (code.toList.take i)).length : Int)
  | none => 1

/-- JS class `[a-zA-Z0-9]` (under `/i` the same as `[0-9A-Z]`). -/
def isAlnumJs (c : Char) : Bool := c.isAlpha || c.isDigit

/-- JS class `[a-zA-Z0-9\-]`. -/
def isAlnumDash (c : Char) : Bool := c.isAlpha || c.isDigit || c == Char.ofNat 45

/-- JS class `[^'"]`: anything but a single or double quote. -/
def isNotSD (c : Char) : Bool := !(c == Char.ofNat 39 || c == Char.ofNat 34)

/-- JS `.` outside dotAll: any character except line terminators. -/
def isDotCh (c : Char) : Bool :=
  !(c == Char.ofNat 10 || c == Char.ofNat 13 || c == Char.ofNat 0x2028
    || c == Char.ofNat 0x2029)

/-- JS class `[:=]`. -/
def isAssignCh (c : Char) : Bool := c == Char.ofNat 58 || c == Char.ofNat 61

/-- JS class `[_-]` (the optional separator of `api[_-]?key`). -/
def isSepCh (c : Char) : Bool := c == Char.ofNat 95 || c == Char.ofNat 45

/-- Shorthand: case-insensitive literal token. -/
def rlit (s : String) : RToken := RToken.lit s.toList

/-- Shorthand: class token. -/
def rcls (p : Char → Bool) (lo : Nat) (hi : Option Nat) : RToken :=
  RToken.cls p lo hi

/-- Token `\s*`. -/
def rws0 : RToken := rcls isJsWs 0 none

/-- Token `\s+`. -/
def rws1 : RToken := rcls isJsWs 1 none

/-- Token `.*`. -/
def rany : RToken := rcls isDotCh 0 none

/-- Token for one `['"` + backtick + `]` character. -/
def rquote : RToken := rcls isQuote3 1 (some 1)

namespace PatternsJs

/-- A rule of the `SECURITY_PATTERNS` table of
`src/backend/src/utils/patterns.js`; regexes are embedded as token
sequences for `matchSeq`. -/
structure Rule where
  name : String
  severity : String
  regexes : List (List RToken)
  languages : List String

/-- Embeds the `SECURITY_PATTERNS` table of
`src/backend/src/utils/patterns.js` (lines 2-80), in object-entry order:
sqlInjection, xss, hardcodedSecrets, commandInjection, pathTraversal,
insecureDeserialization, each regex transcribed token for token. -/
def SECURITY_PATTERNS : List Rule :=
  [ { name := "SQL Injection"
      severity := "critical"
      regexes :=
        [ [rlit "SELECT", rws1, rany, rws1, rlit "FROM", rws1, rany, rws1,
            rlit "WHERE", rws1, rany, rquote, rws0, rlit "+"],
          [rlit "INSERT", rws1, rlit "INTO", rws1, rany, rws1, rlit "VALUES",
            rws0, rlit "(", rany, rquote, rws0, rlit "+"],
          [rlit "UPDATE", rws1, rany, rws1, rlit "SET", rws1, rany, rquote,
            rws0, rlit "+"],
          [rlit "DELETE", rws1, rlit "FROM", rws1, rany, rws1, rlit "WHERE",
            rws1, rany, rquote, rws0, rlit "+"],
          [rlit "exec", rws0, rlit "(", rws0, rquote, rws0, rany, rws0,
            rquote, rws0, rlit "+"],
          [rlit "query", rws0, rlit "(", rws0, rquote, rws0, rany, rws0,
            rquote, rws0, rlit "+"] ]
      languages := ["javascript", "typescript", "python", "java", "php",
        "ruby", "go"] },
    { name := "XSS (Cross-Site Scripting)"
      severity := "high"
      regexes :=
        [ [rlit "innerHTML", rws0, rlit "=", rws0, rany, rlit "+"],
          [rlit "outerHTML", rws0, rlit "=", rws0, rany, rlit "+"],
          [rlit "document.write", rws0, rlit "(", rany, rlit "+"],
          [rlit "eval", rws0, rlit "(", rany, rlit "+"],
          [rlit "dangerouslySetInnerHTML"] ]
      languages := ["javascript", "typescript", "jsx", "tsx"] },
    { name := "Hardcoded Secret"
      severity := "critical"
      regexes :=
        [ [rquote, rlit "sk-", rcls isAlnumJs 20 none, rquote],
          [rquote, rlit "AKIA", rcls isAlnumJs 16 (some 16), rquote],
          [rquote, rlit "ghp_", rcls isAlnumJs 36 (some 36), rquote],
          [rquote, rlit "glpat-", rcls isAlnumDash 20 (some 20), rquote],
          [rlit "password", rws0, rcls isAssignCh 1 (some 1), rws0, rquote,
            rcls isNotSD 8 none, rquote],
          [rlit "api", rcls isSepCh 0 (some 1), rlit "key", rws0,
            rcls isAssignCh 1 (some 1), rws0, rquote, rcls isNotSD 8 none,
            rquote],
          [rlit "secret", rws0, rcls isAssignCh 1 (some 1), rws0, rquote,
            rcls isNotSD 8 none, rquote] ]
      languages := ["javascript", "typescript", "python", "java", "php",
        "ruby", "go", "yaml", "json"] },
    { name := "Command Injection"
      severity := "critical"
      regexes :=
        [ [rlit "exec", rws0, rlit "(", rws0, rquote, rany,
            RToken.lit ['$', Char.ofNat 123]],
          [rlit "execSync", rws0, rlit "(", rws0, rquote, rany, rlit "$"],
          [rlit "spawn", rws0, rlit "(", rws0, rquote, rany, rlit "$"],
          [rlit "child_process", rany, rlit "exec"] ]
      languages := ["javascript", "typescript", "python", "ruby", "php"] },
    { name := "Path Traversal"
      severity := "high"
      regexes :=
        [ [rlit "fs.readFile", rws0, rlit "(", rws0, rany, rlit "req."],
          [rlit "fs.writeFile", rws0, rlit "(", rws0, rany, rlit "req."],
          [rlit "res.sendFile", rws0, rlit "(", rws0, rany, rlit "req."],
          [rlit "path.join", rws0, rlit "(", rws0, rany, rlit "req."] ]
      languages := ["javascript", "typescript", "python", "java", "php"] },
    { name := "Insecure Deserialization"
      severity := "critical"
      regexes :=
        [ [rlit "JSON.parse", rws0, rlit "(", rws0, rany, rlit "req."],
          [rlit "eval", rws0, rlit "(", rws0, rany, rlit "req."],
          [rlit "new", rws1, rlit "Function", rws0, rlit "(", rws0, rany,
            rlit "req."],
          [rlit "deserialize", rws0, rlit "(", rws0, rany, rlit "req."] ]
      languages := ["javascript", "typescript", "python", "java", "ruby"] } ]

/-- Embeds `quickPatternScan` of `src/backend/src/utils/patterns.js`
(lines 85-113): for each rule passing the language guard, every regex is
matched once against the whole code (no per-line loop and no break), each
match pushing one finding whose line is that of the first occurrence of
the matched text — so one rule can emit several findings, even for the
same line.  The JS object's `pattern` key and the truncated `match`
display field are not modelled on `Finding`. -/
def quickPatternScan (code language : String) : List Finding :=
  PatternsJs.SECURITY_PATTERNS.foldl
    (fun findings rule =>
      if ! rule.languages.contains (jsToLower language) then findings
      else findings ++ rule.regexes.filterMap
        (fun toks =>
          (firstMatch toks code.toList).map
            (fun matched =>
              { type := rule.name
                severity := rule.severity
                line := jsMatchLine code ⟨matched⟩
                confidence := some 70 })))
    []

end PatternsJs

/-- JS truthiness of an optional string: present and non-empty. -/
def truthyS (x : Option String) : Bool :=
  match x with
  | none => false
  | some s => s ≠ ""

/-- Fields of a parsed provider JSON response that the gateways consume;
either may be absent from the model's output. -/
structure LLMRaw where
  riskScore : Option ℚ := none
  findings : Option (List Finding) := none
deriving Repr, DecidableEq

/-- Canonical gateway result of `src/unnamed/part_001` (lines 120-125 and
133). -/
structure LLMResult where
  findings : List Finding
  riskScore : ℚ
  provider : String
  model : Option String := none
deriving Repr, DecidableEq

/-- Configuration and environment bits read by `isProviderAvailable`:
provider enabled flags and credential presence. -/
structure LLMEnv where
  groqEnabled : Bool
  groqKeyPresent : Bool
  openaiEnabled : Bool
  openaiKeyPresent : Bool
  ollamaEnabled : Bool
deriving Repr, DecidableEq

/-- Embeds `isProviderAvailable` (identical in `src/unnamed/part_001`
lines 9-19 and `llmService.js` lines 44-56): enabled by configuration, the
credential present, and ollama unconditionally unavailable. -/
def isProviderAvailable (env : LLMEnv) : String → Bool
  | "groq" => env.groqEnabled && env.groqKeyPresent
  | "openai" => env.openaiEnabled && env.openaiKeyPresent
  | "ollama" => false
  | _ => true

namespace LLMGateway

/-- One iteration of the provider loop of `analyzeCode` in
`src/unnamed/part_001` (lines 106-131): skip unavailable providers, call
groq and normalize its parsed response, and `continue` past every other
provider (the non-groq branch at line 117); a thrown provider error is
caught and the loop continues.  `groqCall` is the outcome of `callGroq`. -/
def providerStep (env : LLMEnv) (groqCall : Except String LLMRaw)
    (groqModel : String) (provider : String) : Option LLMResult :=
  if ! isProviderAvailable env provider then none
  else if provider = "groq" then
    match groqCall with
    | .ok r =>
        some
          { riskScore := jsOrQ r.riskScore 0
            findings := r.findings.getD []
            provider := "groq"
            model := some groqModel }
    | .error _ => none
  else none

/-- Embeds the module-level `analyzeCode` of `src/unnamed/part_001`
(lines 102-135): try `groq` then `openai` in order and fall back to the
empty result with provider "none" when no iteration returns. -/
def analyzeCode (env : LLMEnv) (groqCall : Except String LLMRaw)
    (groqModel : String) : LLMResult :=
  match ["groq", "openai"].findSome? (providerStep env groqCall groqModel) with
  | some r => r
  | none => { findings := [], riskScore := 0, provider := "none", model := none }

end LLMGateway

namespace LLMService

/-- The object returned by the class gateway on success (`llmService.js`
lines 29-33): the parsed response spread together with provider and model
(no normalization of missing fields). -/
structure ClassResult where
  raw : LLMRaw
  provider : String
  model : String
deriving Repr, DecidableEq

/-- One iteration of the provider loop of `LLMService.analyzeCode`
(`llmService.js` lines 17-39): skip unavailable providers, return the
provider's parsed response on success, continue on a caught error.
`calls p` is the outcome of `callProvider(p, ...)`. -/
def providerStep (env : LLMEnv) (calls : String → Except String LLMRaw)
    (models : String → String) (provider : String) : Option ClassResult :=
  if ! isProviderAvailable env provider then none
  else
    match calls provider with
    | .ok r => some { raw := r, provider := provider, model := models provider }
    | .error _ => none

/-- Embeds `LLMService.analyzeCode` of
`src/backend/src/services/llmService.js` (lines 14-42): try groq, ollama,
openai in order and, when every provider fails or is unavailable, throw
`Error('All LLM providers failed')` (line 41). -/
def analyzeCode (env : LLMEnv) (calls : String → Except String LLMRaw)
    (models : String → String) : Except String ClassResult :=
  match ["groq", "ollama", "openai"].findSome? (providerStep env calls models) with
  | some r => .ok r
  | none => .error "All LLM providers failed"

end LLMService

/-- A learned pattern record read back from storage by
`getLearnedPatterns`. -/
structure LearnedPattern where
  type : String
  line : Int
deriving Repr, DecidableEq

/-- Embeds `ScannerService.applyLearnedPatterns` (`scannerService.js`
lines 263-290): a finding similar to a learned pattern (same type, line
distance below 5) has its confidence scaled by 0.3 and is flagged
`learned` (a JS `undefined * 0.3` is NaN; modelled as absent stays
absent). -/
def applyLearnedPatterns (learned : List LearnedPattern)
    (findings : List Finding) : List Finding :=
  findings.map
    (fun f =>
      if learned.any
          (fun lp => lp.type == f.type && (lp.line - f.line).natAbs < 5) then
        { f with
          confidence := f.confidence.map (fun c => c * (3 / 10))
          learned := some true }
      else f)

/-- The scan record assembled by the orchestrators; unused-by-a-version
fields keep their defaults. -/
structure Scan where
  id : String
  repo : String := ""
  prNumber : Option Int := none
  filename : String := ""
  language : String := ""
  code : String := ""
  codeHash : String := ""
  findings : List Finding := []
  rawFindings : List Finding := []
  patternFindings : List Finding := []
  llmFindings : List Finding := []
  riskScore : ℚ := 0
  status : String
  error : Option String := none
deriving Repr, DecidableEq

namespace ScannerService

/-- Embeds `ScannerService.scanCode` of
`src/backend/src/services/scannerService.js` (lines 135-214).  The pattern
engine, the LLM gateway outcome, the persisted learned patterns, the hash
function and the save outcome are passed explicitly; the body is the `try`
block, and any thrown error (the LLM call has no inner catch here, and
`saveScan` has no try/catch) produces the failed record of lines 204-210. -/
def scanCode (pscan : String → String → List Finding)
    (hashData : String → String)
    (llmOutcome : Except String (List Finding))
    (learned : List LearnedPattern)
    (saveOutcome : Except String Unit)
    (scanId code filename repo : String) (prNumber : Option Int)
    (language : String) : Scan :=
  let patternFindings := pscan code language
  match llmOutcome with
  | .error e => { id := scanId, status := "failed", error := some e }
  | .ok llmFindings =>
      let mergedFindings := ScannerService.mergeFindings patternFindings llmFindings
      let filteredFindings := applyLearnedPatterns learned mergedFindings
      match saveOutcome with
      | .error e => { id := scanId, status := "failed", error := some e }
      | .ok _ =>
          { id := scanId
            repo := repo
            prNumber := prNumber
            filename := filename
            language := language
            code := code.take 2000
            codeHash := hashData code
            findings := filteredFindings
            rawFindings := mergedFindings
            patternFindings := patternFindings
            llmFindings := llmFindings
            status := "completed" }

end ScannerService

namespace ScannerServiceV2

/-- Embeds the rewritten `ScannerService.scanCode` stored in
`src/backend/src/services/llmService.js` (lines 422-515): empty code
throws into the outer catch; the LLM call sits in its own try/catch and
degrades to no findings; `saveScan` there catches its own errors and never
throws. -/
def scanCode (pscan : String → String → List Finding)
    (hashData : String → String)
    (llmOutcome : Except String (List Finding))
    (scanId code filename repo : String) (prNumber : Option Int)
    (language : String) : Scan :=
  if code = "" then { id := scanId, status := "failed", error := some "Empty code" }
  else
    let patternFindings := pscan code language
    let llmFindings :=
      match llmOutcome with
      | .ok fs => fs
      | .error _ => []
    let findings := ScannerServiceV2.mergeFindings patternFindings llmFindings
    { id := scanId
      repo := repo
      prNumber := prNumber
      filename := filename
      language := language
      code := code.take 2000
      codeHash := hashData code
      findings := findings
      patternFindings := patternFindings
      llmFindings := llmFindings
      status := "completed" }

end ScannerServiceV2

namespace Part007

/-- The semantic duplicate test inside `coveredZones.some(...)` of the
`mergeFindings` stored in `src/unnamed/part_007` (lines 57-61), on
already-lowercased types: injection matches execution in either
direction, secret matches password, or the types are equal. -/
def semanticMatch (pType zType : String) : Bool :=
  (containsSub pType "injection" && containsSub zType "execution")
    || (containsSub pType "execution" && containsSub zType "injection")
    || (containsSub pType "secret" && containsSub zType "password")
    || (pType == zType)

/-- The object pushed for a non-duplicate pattern finding (part_007 lines
67-71): `issue` falls back through `pf.issue || pf.description || default`
and likewise for `fix_instruction`. -/
def decorate (pf : Finding) : Finding :=
  { pf with
    issue := some (jsOrS pf.issue
      (jsOrS pf.description "Security pattern match detected."))
    fix_instruction := some (jsOrS pf.fix_instruction
      (jsOrS pf.fix "Follow secure coding practices.")) }

/-- Embeds `mergeFindings` of `src/unnamed/part_007` (lines 35-75): LLM
findings are the master list; a pattern finding is appended unless some
LLM zone lies within two lines and matches semantically; no final sort. -/
def mergeFindings (patternFindings llmFindings : List Finding) : List Finding :=
  patternFindings.foldl
    (fun merged pf =>
      if llmFindings.any
          (fun zone =>
            (zone.line - pf.line).natAbs ≤ 2
              && semanticMatch (jsToLower pf.type) (jsToLower zone.type)) then
        merged
      else merged ++ [decorate pf])
    llmFindings

/-- Embeds `scanCode` of `src/unnamed/part_007` (lines 78-123): empty code
throws into the catch-all, as does a throwing LLM gateway; otherwise the
scan completes with the merged findings (filename backfilled) and — line
93 — `riskScore = llmResult?.riskScore || 0`, stored unconditionally with
no empty-findings floor. -/
def scanCode (pscan : String → String → List Finding)
    (hashData : String → String) (llmOutcome : Except String LLMRaw)
    (scanId code filename repo : String) (prNumber : Option Int)
    (language : String) : Scan :=
  if code = "" then
    { id := scanId, status := "failed", error := some "Empty code provided" }
  else
    match llmOutcome with
    | .error e => { id := scanId, status := "failed", error := some e }
    | .ok llmResult =>
        let patternFindings := pscan code language
        let aiFindings := llmResult.findings.getD []
        let riskScore := jsOrQ llmResult.riskScore 0
        let rawFindings := Part007.mergeFindings patternFindings aiFindings
        let findings := rawFindings.map
          (fun f => { f with filename := some (jsOrS f.filename filename) })
        { id := scanId
          repo := repo
          prNumber := prNumber
          filename := filename
          language := language
          codeHash := hashData code
          findings := findings
          riskScore := riskScore
          status := "completed" }

end Part007

/-- An inbound webhook request as the controllers see it: the signature
header, the event header and the raw body (absent pieces are `none`). -/
structure WebhookReq where
  signature : Option String := none
  event : Option String := none
  rawBody : Option String := none

/-- The HTTP response produced by a webhook handler, together with whether
`handlePullRequest` was invoked during handling. -/
structure WebhookResponse where
  status : Nat
  body : String
  invokedHandlePR : Bool
deriving Repr, DecidableEq

namespace WebhookGateway

/-- Embeds the module-level `verifySignature` of
`src/backend/src/controllers/webhookController.js` (lines 14-34): missing
signature, secret or raw body fail immediately; otherwise the header must
equal `sha256=` followed by the hex HMAC of the raw body under the secret
(`timingSafeEqual` throws on length mismatch, caught to `false`, so it
amounts to string equality).  `hmacHex secret body` stands for
`crypto.createHmac('sha256', secret).update(body).digest('hex')`. -/
def verifySignature (hmacHex : String → String → String)
    (secret : Option String) (req : WebhookReq) : Bool :=
  truthyS req.signature && truthyS secret && truthyS req.rawBody
    && (req.signature.getD ""
          == "sha256=" ++ hmacHex (secret.getD "") (req.rawBody.getD ""))

/-- Embeds the module-level `handleGitHubWebhook`
(`webhookController.js` lines 93-112): an invalid signature is ignored
with a 200; a JSON parse failure or a `handlePullRequest` failure hits the
catch-all, which also replies 200; only a `pull_request` event reaches
`handlePullRequest`. -/
def handleGitHubWebhook {P : Type} (hmacHex : String → String → String)
    (secret : Option String) (parse : String → Except String P)
    (handlePR : P → Except String Unit) (req : WebhookReq) : WebhookResponse :=
  if ! verifySignature hmacHex secret req then
    { status := 200, body := "Ignored", invokedHandlePR := false }
  else
    match parse (req.rawBody.getD "") with
    | .error _ => { status := 200, body := "Error", invokedHandlePR := false }
    | .ok payload =>
        if req.event == some "pull_request" then
          match handlePR payload with
          | .ok _ => { status := 200, body := "OK", invokedHandlePR := true }
          | .error _ => { status := 200, body := "Error", invokedHandlePR := true }
        else { status := 200, body := "OK", invokedHandlePR := false }

end WebhookGateway

namespace WebhookController

/-- Embeds the class `verifySignature` of the first `WebhookController`
rewrite (`webhookController.js` lines 187-266): same checks, except the
raw body need only be present (an absent body makes `Buffer.from` throw,
caught to `false`; an empty body is still hashed). -/
def verifySignature (hmacHex : String → String → String)
    (secret : Option String) (req : WebhookReq) : Bool :=
  truthyS req.signature && truthyS secret
    && match req.rawBody with
      | some body => req.signature.getD "" == "sha256=" ++ hmacHex (secret.getD "") body
      | none => false

/-- Embeds the class `handleGitHubWebhook` of the first `WebhookController`
rewrite (`webhookController.js` lines 273-336): an invalid signature is
answered with 401, a payload parse failure reaches the outer catch and
yields 500, and `handlePullRequest` swallows its own errors so a
`pull_request` event always ends in 200. -/
def handleGitHubWebhook {P : Type} (hmacHex : String → String → String)
    (secret : Option String) (parse : String → Except String P)
    (req : WebhookReq) : WebhookResponse :=
  if ! verifySignature hmacHex secret req then
    { status := 401, body := "Invalid signature", invokedHandlePR := false }
  else
    match parse (req.rawBody.getD "") with
    | .error _ =>
        { status := 500, body := "Internal Server Error", invokedHandlePR := false }
    | .ok _ =>
        { status := 200, body := "OK"
          invokedHandlePR := req.event == some "pull_request" }

end WebhookController

/-- The provider response of the token-exchange call:
`{token, expires_in}`. -/
structure ExchangeResult where
  token : String
  expiresIn : Option Int := none
deriving Repr, DecidableEq

namespace GitHubAuth

/-- One `tokenCache` entry of the module-level GitHub auth code stored in
`webhookController.js` (lines 118, 147): the token and its computed
expiry instant in milliseconds. -/
structure CacheEntry where
  token : String
  expiresAt : Int
deriving Repr, DecidableEq

/-- The `tokenCache` `Map`, as an association list keyed by installation
id. -/
abbrev TokenCache := List (Nat × CacheEntry)

/-- JS `Map.get`. -/
def lookupCache : TokenCache → Nat → Option CacheEntry
  | [], _ => none
  | (i, e) :: rest, j => if i = j then some e else lookupCache rest j

/-- JS `Map.set`: overwrite the entry of an existing key, else append. -/
def setCache : TokenCache → Nat → CacheEntry → TokenCache
  | [], j, e => [(j, e)]
  | (i, d) :: rest, j, e =>
      if i = j then (j, e) :: rest else (i, d) :: setCache rest j e

/-- The exchange-and-cache path of the module-level `getInstallationToken`
(`webhookController.js` lines 142-148): perform the token exchange (JWT
signing and the HTTP call are absorbed into `exch`; their errors
propagate), cache the token under the installation id with expiry
`now + (expires_in || 3600 − 300) s`, and return it. -/
def freshToken (exch : Nat → Int → Except String ExchangeResult)
    (cache : TokenCache) (installationId : Nat) (now : Int) :
    Except String (String × TokenCache) :=
  match exch installationId now with
  | .error e => .error e
  | .ok r =>
      let expiresAt := now + (jsOrI r.expiresIn 3600 - 300) * 1000
      .ok (r.token, setCache cache installationId ⟨r.token, expiresAt⟩)

/-- Embeds the module-level `getInstallationToken` stored in
`webhookController.js` (lines 135-153): reject a falsy installation id,
return the cached token of this id while it is still valid, otherwise
exchange afresh. -/
def getInstallationToken (exch : Nat → Int → Except String ExchangeResult)
    (cache : TokenCache) (installationId : Nat) (now : Int) :
    Except String (String × TokenCache) :=
  if installationId = 0 then .error "installationId required"
  else
    match lookupCache cache installationId with
    | some cached =>
        if now < cached.expiresAt then .ok (cached.token, cache)
        else freshToken exch cache installationId now
    | none => freshToken exch cache installationId now

/-- Every cached token was issued by the exchange oracle for the id it is
stored under (at some instant). -/
def Provenance (exch : Nat → Int → Except String ExchangeResult)
    (cache : TokenCache) : Prop :=
  ∀ p ∈ cache, ∃ t r, exch p.1 t = .ok r ∧ p.2.token = r.token

end GitHubAuth

namespace GitHubService

/-- The token-cache fields of the `GitHubService` class
(`githubService.js` lines 12-13): one shared slot, not keyed by
installation id. -/
structure State where
  cachedToken : Option String := none
  tokenExpiry : Int := 0
deriving Repr, DecidableEq

/-- Embeds `GitHubService.getInstallationToken` (`githubService.js`
lines 68-124): any unexpired cached token is returned regardless of the
requested installation id; otherwise the exchange for this id refills the
single slot with a fixed 50-minute lifetime. -/
def getInstallationToken (exch : Nat → Int → Except String ExchangeResult)
    (st : State) (installationId : Nat) (now : Int) :
    Except String (String × State) :=
  if truthyS st.cachedToken && decide (now < st.tokenExpiry) then
    .ok (st.cachedToken.getD "", st)
  else
    match exch installationId now with
    | .error e => .error e
    | .ok r =>
        .ok (r.token, { cachedToken := some r.token
                        tokenExpiry := now + 50 * 60 * 1000 })

end GitHubService

theorem foldl_if_append {α β : Type} (c : α → Bool) (g : α → β) (l : List α) :
    ∀ init : List β,
      l.foldl (fun acc x => if c x then acc else acc ++ [g x]) init
        = init ++ (l.filter (fun x => ! c x)).map g := by
  induction l with
  | nil => intro init; simp
  | cons x l ih =>
      intro init
      by_cases h : c x = true
      · simp [h, ih]
      · simp only [Bool.not_eq_true] at h
        simp [h, ih]

theorem specNormalize_eq : specNormalize = getBaseType := rfl

theorem specDecorate_eq : specDecorate = decoratePattern := rfl

theorem specCovered_any (l : List Finding) (pf : Finding) :
    specCovered l pf = l.any (fun af => isDupOf af pf) := rfl

theorem mergeFindings_eq (patternFindings llmFindings : List Finding) :
    mergeFindings patternFindings llmFindings
      = specMerge patternFindings llmFindings := by
  unfold mergeFindings specMerge
  rw [foldl_if_append]
  rfl

/-- Claim C1 (amended): the merge in `database.js` (`mergeFindings`,
lines 68-107) coincides with the reference algorithm of the claim —
every LLM finding, plus each pattern finding not matched by any LLM
finding within two lines and the same normalized bucket, decorated with
issue/fix defaults, stable-sorted by ascending line with LLM findings
first on ties.  The class rewrite `ScannerService.mergeFindings` does
not (see its counterexample). -/
theorem merge_equals_reference_algorithm
    (patternFindings llmFindings : List Finding) :
    mergeFindings patternFindings llmFindings
      = specMerge patternFindings llmFindings :=
  mergeFindings_eq patternFindings llmFindings

/-- Claim C1, counterexample: `ScannerService.mergeFindings`
(`scannerService.js` lines 235-258) differs from the reference algorithm:
a pattern finding one line away from an LLM finding of the same bucket is
kept (its dedup tests exact line equality only) and the result is sorted
by severity rank, not line. -/
theorem scanner_merge_differs_from_reference :
    ScannerService.mergeFindings
        [{ line := 5, type := "RCE", severity := "critical" }]
        [{ line := 6, type := "rce", severity := "high" }]
      ≠ specMerge [{ line := 5, type := "RCE", severity := "critical" }]
          [{ line := 6, type := "rce", severity := "high" }] := by
  decide

theorem mem_insertBy {α : Type} (le : α → α → Bool) (a x : α) (l : List α) :
    x ∈ insertBy le a l ↔ x = a ∨ x ∈ l := by
  induction l with
  | nil => simp [insertBy]
  | cons y ys ih =>
      by_cases h : le a y
      · simp [insertBy, h]
      · simp [insertBy, h, ih]
        tauto

theorem mem_stableSortBy {α : Type} (le : α → α → Bool) (x : α) (l : List α) :
    x ∈ stableSortBy le l ↔ x ∈ l := by
  induction l with
  | nil => simp [stableSortBy]
  | cons y ys ih => simp [stableSortBy, mem_insertBy, ih]

/-- Claim C2, counterexample: for one critical merged finding and an LLM
score of 0, the code computes riskScore 0 (`database.js` line 133 just
passes the LLM score through, flooring the empty case), while the claimed
formula gives `round1(clamp(max(2.5, 0))) = 2.5`.  No severity-weighted
base score exists anywhere in the repository. -/
theorem riskScore_not_reference_formula :
    scanRiskScore "input.js"
        [{ line := 1, type := "RCE", severity := "critical" }] [] none
      ≠ specRiskScore
          (scanFindings "input.js"
            [{ line := 1, type := "RCE", severity := "critical" }] []) 0 := by
  have hl : scanFindings "input.js"
      [{ line := 1, type := "RCE", severity := "critical" }] []
      = [{ line := 1, type := "RCE", severity := "critical"
           filename := some "input.js"
           issue := some "Security pattern match detected."
           fix_instruction := some "Follow secure coding practices." }] := by
    decide
  have h0 : scanRiskScore "input.js"
      [{ line := 1, type := "RCE", severity := "critical" }] [] none = 0 := by
    simp [scanRiskScore, jsOrQ]
  have hscore : specRiskScore
      [{ line := 1, type := "RCE", severity := "critical"
         filename := some "input.js"
         issue := some "Security pattern match detected."
         fix_instruction := some "Follow secure coding practices." }] 0 = 5 / 2 := by
    have hbase : specBaseScore
        [{ line := 1, type := "RCE", severity := "critical"
           filename := some "input.js"
           issue := some "Security pattern match detected."
           fix_instruction := some "Follow secure coding practices." }] = 5 / 2 := by
      simp [specBaseScore, severityWeight]
    unfold specRiskScore
    rw [hbase]
    have hmm : min (10 : ℚ) (max 0 (max (5 / 2) 0)) = 5 / 2 := by
      norm_num [max_def, min_def]
    rw [hmm]
    unfold roundTo1
    have h5 : (5 / 2 : ℚ) * 10 + 1 / 2 = 51 / 2 := by norm_num
    rw [h5]
    have hfl : (⌊(51 / 2 : ℚ)⌋ : ℤ) = 25 := by
      rw [Int.floor_eq_iff]
      norm_num
    rw [hfl]
    norm_num
  rw [h0, hl, hscore]
  norm_num

/-- Claim C2 (amended): in the `database.js` scanCode the riskScore is 0
when the merged, decorated findings list is empty and otherwise exactly
the LLM-reported risk score (0 if absent); in the earlier part_007
rewrite every completed scan stores the LLM-reported score
unconditionally (line 93) — there is no empty-findings floor there; and
neither version computes any severity-weight base score, max, clamp or
rounding. -/
theorem riskScore_actual_behavior (filename : String)
    (patternFindings llmFindings : List Finding) (llmRiskScore : Option ℚ) :
    (scanFindings filename patternFindings llmFindings = [] →
        scanRiskScore filename patternFindings llmFindings llmRiskScore = 0)
    ∧ (scanFindings filename patternFindings llmFindings ≠ [] →
        scanRiskScore filename patternFindings llmFindings llmRiskScore
          = jsOrQ llmRiskScore 0)
    ∧ ∀ (pscan : String → String → List Finding) (hashData : String → String)
        (raw : LLMRaw) (scanId code fname repo language : String)
        (prNumber : Option Int), code ≠ "" →
        (Part007.scanCode pscan hashData (.ok raw) scanId code fname repo
            prNumber language).riskScore = jsOrQ raw.riskScore 0
        ∧ (Part007.scanCode pscan hashData (.ok raw) scanId code fname repo
            prNumber language).status = "completed" := by
  refine ⟨?_, ?_, ?_⟩
  · intro h
    simp [scanRiskScore, List.length_eq_zero, h]
  · intro h
    simp [scanRiskScore, List.length_eq_zero, h]
  · intro pscan hashData raw scanId code fname repo language prNumber hcode
    constructor <;> simp [Part007.scanCode, hcode]

/-- Witness for the amended claim C2 theorem: empty merged findings give
riskScore 0 under `database.js`, while the part_007 scanCode stores the
LLM-reported 7 even though its findings list is empty. -/
theorem riskScore_actual_behavior_witness :
    scanRiskScore "input.js" [] [] (some 7) = 0
    ∧ (Part007.scanCode (fun _ _ => []) (fun _ => "digest")
        (.ok { riskScore := some 7, findings := some [] }) "id" "x" "f.js"
        "manual" none "javascript").riskScore = 7
    ∧ (Part007.scanCode (fun _ _ => []) (fun _ => "digest")
        (.ok { riskScore := some 7, findings := some [] }) "id" "x" "f.js"
        "manual" none "javascript").findings = [] :=
  ⟨(riskScore_actual_behavior "input.js" [] [] (some 7)).1 (by decide),
   (((riskScore_actual_behavior "input.js" [] [] (some 7)).2.2
        (fun _ _ => []) (fun _ => "digest")
        { riskScore := some 7, findings := some [] } "id" "x" "f.js" "manual"
        "javascript" none (by decide)).1).trans (by decide),
   by decide⟩

/-- Claim C9: whenever the merged finding list is empty, the scan's
riskScore is 0, regardless of the LLM-reported number
(`database.js` line 133). -/
theorem empty_merge_forces_zero_score (filename : String)
    (patternFindings llmFindings : List Finding) (llmRiskScore : Option ℚ)
    (h : mergeFindings patternFindings llmFindings = []) :
    scanRiskScore filename patternFindings llmFindings llmRiskScore = 0 := by
  simp [scanRiskScore, scanFindings, h]

/-- Witness for the claim C9 theorem at a concrete input: no findings but
an LLM-reported score of 9 still yields 0. -/
theorem empty_merge_forces_zero_score_witness :
    scanRiskScore "input.js" [] [] (some 9) = 0 :=
  empty_merge_forces_zero_score "input.js" [] [] (some 9) (by decide)

/-- Claim C3, counterexample: the dedup invariant fails when the LLM list
itself contains duplicates — `mergeFindings` keeps every LLM finding, so a
scan built from the LLM list `[eval@1, eval@1]` has two findings with the
same `(line, normalizedType)` pair `(1, code_exec)`. -/
theorem dedup_invariant_counterexample :
    ¬ (((scanFindings "input.js" []
          [{ line := 1, type := "eval", severity := "high" },
            { line := 1, type := "eval", severity := "high" }]).map
          (fun f => (f.line, getBaseType f.type))).Nodup) := by
  decide

/-- Claim C3 (amended): cross-engine dedup holds in both cited merges,
but nothing removes duplicates inside one engine's own list.  Under the
`database.js` merge, every finding is one of the LLM findings or the
decoration of a pattern finding that no LLM finding matches within two
lines with equal normalized bucket — so cross-engine
`(line, normalizedType)` duplicates are impossible there; under the
class merge (`ScannerService.mergeFindings`), every finding is an LLM
finding or an undecorated pattern finding whose exact line is not among
the LLM lines.  Both keep duplicates already inside the LLM list (or
among pattern findings), so the claimed invariant fails for LLM lists
that themselves contain duplicates. -/
theorem merged_findings_cross_engine_dedup
    (patternFindings llmFindings : List Finding) (x : Finding) :
    (x ∈ mergeFindings patternFindings llmFindings →
      x ∈ llmFindings
        ∨ ∃ pf ∈ patternFindings,
            x = decoratePattern pf ∧ ∀ af ∈ llmFindings, isDupOf af pf = false)
    ∧ (x ∈ ScannerService.mergeFindings patternFindings llmFindings →
      x ∈ llmFindings
        ∨ ∃ pf ∈ patternFindings,
            x = pf ∧ ∀ af ∈ llmFindings, (af.line == pf.line) = false) := by
  constructor
  · intro hx
    rw [mergeFindings_eq] at hx
    unfold specMerge at hx
    rw [mem_stableSortBy] at hx
    rcases List.mem_append.mp hx with h | h
    · exact Or.inl h
    · right
      rcases List.mem_map.mp h with ⟨pf, hpf, hxe⟩
      rcases List.mem_filter.mp hpf with ⟨hp, hcov⟩
      refine ⟨pf, hp, ?_, ?_⟩
      · rw [← hxe]; rfl
      · intro af haf
        have hc : specCovered llmFindings pf = false := by simpa using hcov
        rw [specCovered_any] at hc
        have h2 := List.any_eq_false.mp hc af haf
        simpa using h2
  · intro hx
    unfold ScannerService.mergeFindings at hx
    rw [mem_stableSortBy] at hx
    rcases List.mem_append.mp hx with h | h
    · exact Or.inl h
    · right
      rcases List.mem_filter.mp h with ⟨hp, hcond⟩
      refine ⟨x, hp, rfl, ?_⟩
      intro af haf
      have hc : (llmFindings.any (fun f => f.line == x.line)) = false := by
        simpa using hcond
      have h2 := List.any_eq_false.mp hc af haf
      simpa using h2

/-- Witness for the amended claim C3 theorem at concrete inputs, one per
merge implementation. -/
theorem merged_findings_cross_engine_dedup_witness :
    (decoratePattern { line := 3, type := "SECRET", severity := "critical" }
        ∈ ([] : List Finding)
      ∨ ∃ pf ∈ [({ line := 3, type := "SECRET", severity := "critical" } : Finding)],
          decoratePattern { line := 3, type := "SECRET", severity := "critical" }
              = decoratePattern pf
            ∧ ∀ af ∈ ([] : List Finding), isDupOf af pf = false)
    ∧ (({ line := 3, type := "SECRET", severity := "critical" } : Finding)
          ∈ ([] : List Finding)
      ∨ ∃ pf ∈ [({ line := 3, type := "SECRET", severity := "critical" } : Finding)],
          ({ line := 3, type := "SECRET", severity := "critical" } : Finding) = pf
            ∧ ∀ af ∈ ([] : List Finding), (af.line == pf.line) = false) :=
  ⟨(merged_findings_cross_engine_dedup
      [{ line := 3, type := "SECRET", severity := "critical" }] []
      (decoratePattern { line := 3, type := "SECRET", severity := "critical" })).1
      (by decide),
   (merged_findings_cross_engine_dedup
      [{ line := 3, type := "SECRET", severity := "critical" }] []
      { line := 3, type := "SECRET", severity := "critical" }).2 (by decide)⟩

theorem providerStep_openai_none (env : LLMEnv) (groqCall : Except String LLMRaw)
    (groqModel : String) :
    LLMGateway.providerStep env groqCall groqModel "openai" = none := by
  unfold LLMGateway.providerStep
  split
  · rfl
  · simp

/-- Claim C4 (amended): the module-level `analyzeCode` of
`src/unnamed/part_001` never throws — whenever groq is unavailable or its
call fails it returns the well-formed empty result
`{findings: [], riskScore: 0, provider: "none"}` (its loop skips openai
even when available).  The class-based `LLMService.analyzeCode`
(`llmService.js` lines 14-42) instead throws
`Error('All LLM providers failed')`; see the counterexample. -/
theorem analyzeCode_never_throws (env : LLMEnv) (groqCall : Except String LLMRaw)
    (groqModel : String)
    (h : isProviderAvailable env "groq" = false ∨ ∃ e, groqCall = .error e) :
    LLMGateway.analyzeCode env groqCall groqModel
      = { findings := [], riskScore := 0, provider := "none", model := none } := by
  have ho := providerStep_openai_none env groqCall groqModel
  have hg : LLMGateway.providerStep env groqCall groqModel "groq" = none := by
    unfold LLMGateway.providerStep
    rcases h with h | ⟨e, rfl⟩
    · simp [h]
    · split
      · rfl
      · simp
  simp [LLMGateway.analyzeCode, List.findSome?, hg, ho]

/-- Witness for the amended claim C4 theorem: with every provider disabled
the module gateway returns the empty result. -/
theorem analyzeCode_never_throws_witness :
    LLMGateway.analyzeCode ⟨false, false, false, false, false⟩ (.error "boom") "m"
      = { findings := [], riskScore := 0, provider := "none", model := none } :=
  analyzeCode_never_throws ⟨false, false, false, false, false⟩ (.error "boom") "m"
    (Or.inl (by decide))

/-- Claim C4, counterexample: the class gateway `LLMService.analyzeCode`
with every provider unavailable raises `All LLM providers failed`
(`llmService.js` line 41) instead of returning the empty result. -/
theorem class_analyzeCode_throws :
    LLMService.analyzeCode ⟨false, false, false, false, false⟩
        (fun _ => .error "http failure") (fun _ => "model")
      = .error "All LLM providers failed" := by rfl

/-- Claim C5, counterexample: composing the earlier orchestrator rewrite
(`ScannerService.scanCode`, `scannerService.js` lines 135-214 — no inner
try/catch around the LLM call) with the throwing class gateway: with all
providers down the gateway error reaches the outer catch and the scan
comes back `failed` with no findings, although the pattern engine flagged
an RCE at line 1. -/
theorem scanCode_v1_all_providers_down_fails :
    (Except.map (fun r => (LLMService.ClassResult.raw r).findings.getD [])
        (LLMService.analyzeCode ⟨false, false, false, false, false⟩
          (fun _ => .error "http failure") (fun _ => "model"))
      = .error "All LLM providers failed")
    ∧ (ScannerService.scanCode
        (fun _ _ => [{ line := 1, type := "RCE", severity := "critical" }])
        (fun _ => "hash") (.error "All LLM providers failed") [] (.ok ())
        "scan-1" "eval(x)" "input.js" "manual" none "javascript").status = "failed"
    ∧ (ScannerService.scanCode
        (fun _ _ => [{ line := 1, type := "RCE", severity := "critical" }])
        (fun _ => "hash") (.error "All LLM providers failed") [] (.ok ())
        "scan-1" "eval(x)" "input.js" "manual" none "javascript").findings = [] :=
  ⟨rfl, rfl, rfl⟩

/-- Claim C5 (amended): the rewritten orchestrator
(`ScannerServiceV2.scanCode`, stored in `llmService.js` lines 422-515,
with an inner try/catch around the LLM call) degrades as the claim says:
for nonempty code a failing LLM step still completes the scan with exactly
the pattern-engine findings, and for every input the result is a scan
record with status completed or failed — never a thrown error. -/
theorem scanCode_degrades_to_pattern_findings
    (pscan : String → String → List Finding) (hashData : String → String)
    (e scanId code filename repo language : String) (prNumber : Option Int)
    (hcode : code ≠ "") :
    ((ScannerServiceV2.scanCode pscan hashData (.error e) scanId code filename
        repo prNumber language).status = "completed"
      ∧ (ScannerServiceV2.scanCode pscan hashData (.error e) scanId code filename
          repo prNumber language).findings = pscan code language)
    ∧ ∀ (llmOutcome : Except String (List Finding)) (code2 : String),
        (ScannerServiceV2.scanCode pscan hashData llmOutcome scanId code2 filename
            repo prNumber language).status = "completed"
        ∨ (ScannerServiceV2.scanCode pscan hashData llmOutcome scanId code2 filename
            repo prNumber language).status = "failed" := by
  refine ⟨⟨?_, ?_⟩, ?_⟩
  · simp [ScannerServiceV2.scanCode, hcode]
  · simp [ScannerServiceV2.scanCode, hcode, ScannerServiceV2.mergeFindings]
  · intro llmOutcome code2
    by_cases h : code2 = "" <;> simp [ScannerServiceV2.scanCode, h]

/-- Witness for the amended claim C5 theorem at a concrete input. -/
theorem scanCode_degrades_to_pattern_findings_witness :
    ((ScannerServiceV2.scanCode
        (fun _ _ => [{ line := 1, type := "RCE", severity := "critical" }])
        (fun _ => "hash") (.error "All LLM providers failed") "scan-1" "eval(x)"
        "input.js" "manual" none "javascript").status = "completed"
      ∧ (ScannerServiceV2.scanCode
          (fun _ _ => [{ line := 1, type := "RCE", severity := "critical" }])
          (fun _ => "hash") (.error "All LLM providers failed") "scan-1" "eval(x)"
          "input.js" "manual" none "javascript").findings
        = (fun _ _ => [({ line := 1, type := "RCE", severity := "critical" } : Finding)])
            "eval(x)" "javascript")
    ∧ ∀ (llmOutcome : Except String (List Finding)) (code2 : String),
        (ScannerServiceV2.scanCode
            (fun _ _ => [{ line := 1, type := "RCE", severity := "critical" }])
            (fun _ => "hash") llmOutcome "scan-1" code2
            "input.js" "manual" none "javascript").status = "completed"
        ∨ (ScannerServiceV2.scanCode
            (fun _ _ => [{ line := 1, type := "RCE", severity := "critical" }])
            (fun _ => "hash") llmOutcome "scan-1" code2
            "input.js" "manual" none "javascript").status = "failed" :=
  scanCode_degrades_to_pattern_findings
    (fun _ _ => [{ line := 1, type := "RCE", severity := "critical" }])
    (fun _ => "hash") "All LLM providers failed" "scan-1" "eval(x)" "input.js"
    "manual" "javascript" none (by decide)

/-- Claim C10: on every completed scan, both orchestrator rewrites store
only the first 2000 characters of the input in the scan's `code` field
(`code.substring(0, 2000)`, `scannerService.js` line 171 and
`llmService.js` line 480) while `codeHash` is computed over the full
input. -/
theorem scan_stores_truncated_code
    (pscan : String → String → List Finding) (hashData : String → String)
    (llmOutcome : Except String (List Finding)) (learned : List LearnedPattern)
    (saveOutcome : Except String Unit)
    (scanId code filename repo language : String) (prNumber : Option Int) :
    ((ScannerServiceV2.scanCode pscan hashData llmOutcome scanId code filename
          repo prNumber language).status = "completed" →
      (ScannerServiceV2.scanCode pscan hashData llmOutcome scanId code filename
            repo prNumber language).code = code.take 2000
        ∧ (ScannerServiceV2.scanCode pscan hashData llmOutcome scanId code filename
            repo prNumber language).codeHash = hashData code)
    ∧ ((ScannerService.scanCode pscan hashData llmOutcome learned saveOutcome
          scanId code filename repo prNumber language).status = "completed" →
      (ScannerService.scanCode pscan hashData llmOutcome learned saveOutcome
            scanId code filename repo prNumber language).code = code.take 2000
        ∧ (ScannerService.scanCode pscan hashData llmOutcome learned saveOutcome
            scanId code filename repo prNumber language).codeHash = hashData code) := by
  constructor
  · intro h
    by_cases hc : code = ""
    · exact absurd h (by simp [ScannerServiceV2.scanCode, hc])
    · simp [ScannerServiceV2.scanCode, hc]
  · intro h
    cases llmOutcome with
    | error e => exact absurd h (by simp [ScannerService.scanCode])
    | ok fs =>
        cases saveOutcome with
        | error e => exact absurd h (by simp [ScannerService.scanCode])
        | ok u => simp [ScannerService.scanCode]

/-- Witness for the claim C10 theorem at a concrete input. -/
theorem scan_stores_truncated_code_witness :
    (ScannerServiceV2.scanCode (fun _ _ => []) (fun s => s ++ "-digest") (.ok [])
          "id" "abc" "f.js" "manual" none "javascript").code = "abc".take 2000
      ∧ (ScannerServiceV2.scanCode (fun _ _ => []) (fun s => s ++ "-digest") (.ok [])
          "id" "abc" "f.js" "manual" none "javascript").codeHash
        = (fun s => s ++ "-digest") "abc" :=
  (scan_stores_truncated_code (fun _ _ => []) (fun s => s ++ "-digest") (.ok []) []
      (.ok ()) "id" "abc" "f.js" "manual" "javascript" none).1 (by rfl)

/-- Claim C6 (amended): a webhook request whose signature header is
missing or differs from `sha256=` + HMAC of the raw body never invokes
`handlePullRequest` in any handler version; the module-level handler
(`webhookController.js` lines 93-112) replies 200 "Ignored" as the claim
states, but the class rewrite (lines 273-336) replies 401 (see the
counterexample). -/
theorem webhook_bad_signature_never_scans {P : Type}
    (hmacHex : String → String → String) (sec body : String)
    (ev sig : Option String) (parse : String → Except String P)
    (handlePR : P → Except String Unit)
    (h : sig = none ∨ ∀ s, sig = some s → s ≠ "sha256=" ++ hmacHex sec body) :
    WebhookGateway.handleGitHubWebhook hmacHex (some sec) parse handlePR
        ⟨sig, ev, some body⟩
      = { status := 200, body := "Ignored", invokedHandlePR := false }
    ∧ WebhookController.handleGitHubWebhook hmacHex (some sec) parse
        ⟨sig, ev, some body⟩
      = { status := 401, body := "Invalid signature", invokedHandlePR := false } := by
  have hv : WebhookGateway.verifySignature hmacHex (some sec)
      ⟨sig, ev, some body⟩ = false := by
    rcases h with rfl | h
    · rfl
    · cases sig with
      | none => rfl
      | some s =>
          have hs := h s rfl
          by_cases he : s = ""
          · simp [WebhookGateway.verifySignature, truthyS, he]
          · simp [WebhookGateway.verifySignature, truthyS, he, hs]
  have hv2 : WebhookController.verifySignature hmacHex (some sec)
      ⟨sig, ev, some body⟩ = false := by
    rcases h with rfl | h
    · rfl
    · cases sig with
      | none => rfl
      | some s =>
          have hs := h s rfl
          by_cases he : s = ""
          · simp [WebhookController.verifySignature, truthyS, he]
          · simp [WebhookController.verifySignature, truthyS, he, hs]
  constructor
  · simp [WebhookGateway.handleGitHubWebhook, hv]
  · simp [WebhookController.handleGitHubWebhook, hv2]

/-- Witness for the amended claim C6 theorem: a request without a
signature header. -/
theorem webhook_bad_signature_never_scans_witness :
    WebhookGateway.handleGitHubWebhook (fun _ _ => "digest") (some "secret")
        (fun _ => Except.ok ()) (fun _ => Except.ok ())
        ⟨none, some "pull_request", some "payload"⟩
      = { status := 200, body := "Ignored", invokedHandlePR := false }
    ∧ WebhookController.handleGitHubWebhook (fun _ _ => "digest") (some "secret")
        (fun _ => Except.ok ()) ⟨none, some "pull_request", some "payload"⟩
      = { status := 401, body := "Invalid signature", invokedHandlePR := false } :=
  webhook_bad_signature_never_scans (fun _ _ => "digest") "secret" "payload"
    (some "pull_request") none (fun _ => Except.ok ()) (fun _ => Except.ok ())
    (Or.inl rfl)

/-- Claim C6, counterexample: the class rewrite of the handler answers an
unsigned `pull_request` delivery with HTTP 401, not the claimed 200
(`webhookController.js` line 291); `handlePullRequest` is still not
invoked. -/
theorem webhook_class_wrong_status :
    (WebhookController.handleGitHubWebhook (fun _ _ => "digest") (some "secret")
        (fun _ => Except.ok ()) ⟨none, some "pull_request", some "payload"⟩).status
      = 401
    ∧ (WebhookController.handleGitHubWebhook (fun _ _ => "digest") (some "secret")
        (fun _ => Except.ok ()) ⟨none, some "pull_request", some "payload"⟩).status
      ≠ 200
    ∧ (WebhookController.handleGitHubWebhook (fun _ _ => "digest") (some "secret")
        (fun _ => Except.ok ())
        ⟨none, some "pull_request", some "payload"⟩).invokedHandlePR = false :=
  ⟨rfl, by decide, rfl⟩

theorem lookupCache_mem (cache : GitHubAuth.TokenCache) (i : Nat)
    (e : GitHubAuth.CacheEntry) (h : GitHubAuth.lookupCache cache i = some e) :
    (i, e) ∈ cache := by
  induction cache with
  | nil => simp [GitHubAuth.lookupCache] at h
  | cons p rest ih =>
      obtain ⟨j, d⟩ := p
      by_cases hj : j = i
      · subst hj
        simp [GitHubAuth.lookupCache] at h
        simp [h]
      · simp [GitHubAuth.lookupCache, hj] at h
        exact List.mem_cons_of_mem _ (ih h)

theorem provenance_setCache (exch : Nat → Int → Except String ExchangeResult)
    (cache : GitHubAuth.TokenCache) (i : Nat) (t0 : Int) (r : ExchangeResult)
    (hr : exch i t0 = .ok r) (exp : Int) :
    GitHubAuth.Provenance exch cache →
      GitHubAuth.Provenance exch
        (GitHubAuth.setCache cache i ⟨r.token, exp⟩) := by
  induction cache with
  | nil =>
      intro _ p hp
      simp [GitHubAuth.setCache] at hp
      subst hp
      exact ⟨t0, r, hr, rfl⟩
  | cons q rest ih =>
      obtain ⟨j, d⟩ := q
      intro hprov p hp
      by_cases hj : j = i
      · subst hj
        simp [GitHubAuth.setCache] at hp
        rcases hp with hp | hp
        · subst hp; exact ⟨t0, r, hr, rfl⟩
        · exact hprov p (List.mem_cons_of_mem _ hp)
      · simp [GitHubAuth.setCache, hj] at hp
        rcases hp with hp | hp
        · subst hp; exact hprov _ (List.mem_cons_self _ _)
        · exact ih (fun q hq => hprov q (List.mem_cons_of_mem _ hq)) p hp

theorem freshToken_spec (exch : Nat → Int → Except String ExchangeResult)
    (cache : GitHubAuth.TokenCache) (iid : Nat) (now : Int) (tok : String)
    (cache2 : GitHubAuth.TokenCache)
    (hprov : GitHubAuth.Provenance exch cache)
    (h : GitHubAuth.freshToken exch cache iid now = .ok (tok, cache2)) :
    (∃ t r, exch iid t = .ok r ∧ tok = r.token)
      ∧ GitHubAuth.Provenance exch cache2 := by
  unfold GitHubAuth.freshToken at h
  cases hex : exch iid now with
  | error e => rw [hex] at h; exact absurd h (by simp)
  | ok r =>
      rw [hex] at h
      simp only [Except.ok.injEq, Prod.mk.injEq] at h
      obtain ⟨h1, h2⟩ := h
      subst h1
      rw [← h2]
      exact ⟨⟨now, r, hex, rfl⟩, provenance_setCache exch cache iid now r hex _ hprov⟩

/-- Claim C7 (amended): the module-level `getInstallationToken` stored in
`webhookController.js` (its `tokenCache` is a `Map` keyed by installation
id, expiry `expires_in − 300 s`) behaves as the claim says: a returned
token was always obtained by an exchange for the requested installation
id, the keyed-provenance invariant is preserved, and — whenever the
exchange oracle never hands the same token to two ids — a call never
returns a token issued for a different installation.  The class
`GitHubService.getInstallationToken` violates this (see the
counterexample): its cache is a single unkeyed slot with a fixed
50-minute lifetime. -/
theorem installation_token_keyed
    (exch : Nat → Int → Except String ExchangeResult)
    (cache : GitHubAuth.TokenCache) (installationId : Nat) (now : Int)
    (tok : String) (cache2 : GitHubAuth.TokenCache)
    (hprov : GitHubAuth.Provenance exch cache)
    (h : GitHubAuth.getInstallationToken exch cache installationId now
          = .ok (tok, cache2)) :
    (∃ t r, exch installationId t = .ok r ∧ tok = r.token)
    ∧ GitHubAuth.Provenance exch cache2
    ∧ ∀ (j : Nat) (t2 : Int) (r2 : ExchangeResult),
        (∀ i1 i2 t1 t1s r1 r1s, exch i1 t1 = .ok r1 → exch i2 t1s = .ok r1s →
            r1.token = r1s.token → i1 = i2) →
        j ≠ installationId → exch j t2 = .ok r2 → tok ≠ r2.token := by
  have main : (∃ t r, exch installationId t = .ok r ∧ tok = r.token)
      ∧ GitHubAuth.Provenance exch cache2 := by
    unfold GitHubAuth.getInstallationToken at h
    split at h
    next h0 => exact absurd h (by simp)
    next h0 =>
      split at h
      next cached hl =>
        split at h
        next hexp =>
          simp only [Except.ok.injEq, Prod.mk.injEq] at h
          obtain ⟨h1, h2⟩ := h
          obtain ⟨t, r, hr, he⟩ :=
            hprov (installationId, cached) (lookupCache_mem _ _ _ hl)
          rw [← h2]
          exact ⟨⟨t, r, hr, by rw [← h1]; exact he⟩, hprov⟩
        next hexp =>
          exact freshToken_spec exch cache installationId now tok cache2 hprov h
      next hl =>
        exact freshToken_spec exch cache installationId now tok cache2 hprov h
  refine ⟨main.1, main.2, ?_⟩
  intro j t2 r2 hinj hj hex2 htok
  obtain ⟨t, r, hr, he⟩ := main.1
  exact hj (hinj j installationId t2 t r2 r hex2 hr (by rw [← htok]; exact he))

/-- Witness for the amended claim C7 theorem: first call for installation
1 on an empty cache. -/
theorem installation_token_keyed_witness :
    (∃ t r, (fun (i : Nat) (_ : Int) =>
        (Except.ok ⟨if i = 1 then "tokA" else "tokB", none⟩
          : Except String ExchangeResult)) 1 t = .ok r ∧ "tokA" = r.token)
    ∧ GitHubAuth.Provenance
        (fun i _ => .ok ⟨if i = 1 then "tokA" else "tokB", none⟩)
        [(1, ⟨"tokA", 3300000⟩)]
    ∧ ∀ (j : Nat) (t2 : Int) (r2 : ExchangeResult),
        (∀ i1 i2 t1 t1s r1 r1s,
            (fun (i : Nat) (_ : Int) =>
              (Except.ok ⟨if i = 1 then "tokA" else "tokB", none⟩
                : Except String ExchangeResult)) i1 t1 = .ok r1 →
            (fun (i : Nat) (_ : Int) =>
              (Except.ok ⟨if i = 1 then "tokA" else "tokB", none⟩
                : Except String ExchangeResult)) i2 t1s = .ok r1s →
            r1.token = r1s.token → i1 = i2) →
        j ≠ 1 →
        (fun (i : Nat) (_ : Int) =>
          (Except.ok ⟨if i = 1 then "tokA" else "tokB", none⟩
            : Except String ExchangeResult)) j t2 = .ok r2 →
        "tokA" ≠ r2.token :=
  installation_token_keyed
    (fun i _ => .ok ⟨if i = 1 then "tokA" else "tokB", none⟩) [] 1 0 "tokA"
    [(1, ⟨"tokA", 3300000⟩)]
    (fun p hp => absurd hp (List.not_mem_nil p)) (by rfl)

/-- Claim C7, counterexample: `GitHubService.getInstallationToken`
(`githubService.js` lines 68-124) keeps one shared, unkeyed cache slot
with a fixed 50-minute lifetime: after a call for installation 1, a call
for installation 2 made 1 second later returns installation 1's token
instead of the token the provider would issue for installation 2. -/
theorem class_token_cache_not_keyed :
    (GitHubService.getInstallationToken
        (fun i _ => .ok ⟨if i = 1 then "tokA" else "tokB", some 3600⟩)
        { cachedToken := none, tokenExpiry := 0 } 1 0
      = .ok ("tokA", { cachedToken := some "tokA", tokenExpiry := 3000000 }))
    ∧ (GitHubService.getInstallationToken
        (fun i _ => .ok ⟨if i = 1 then "tokA" else "tokB", some 3600⟩)
        { cachedToken := some "tokA", tokenExpiry := 3000000 } 2 1000
      = .ok ("tokA", { cachedToken := some "tokA", tokenExpiry := 3000000 }))
    ∧ "tokA" ≠ "tokB" :=
  ⟨rfl, rfl, by decide⟩

theorem foldl_if_flatMap {α β : Type} (cond : α → Bool) (g : α → List β)
    (l : List α) : ∀ init : List β,
      l.foldl (fun acc r => if ! cond r then acc else acc ++ g r) init
        = init ++ (l.filter cond).flatMap g := by
  induction l with
  | nil => intro init; simp
  | cons r l ih =>
      intro init
      simp only [List.foldl_cons]
      by_cases h : cond r = true
      · rw [if_neg (by simp [h]), ih (init ++ g r),
          List.filter_cons_of_pos h, List.flatMap_cons, List.append_assoc]
      · rw [if_pos (by simp [Bool.eq_false_iff.mpr h]), ih init,
          List.filter_cons_of_neg h]

theorem quickPatternScanT_eq (table : List PatternRule) (code language : String)
    (hcode : code ≠ "") :
    quickPatternScanT table code language
      = (table.filter
            (fun r => r.languages.contains (jsToLower language))).flatMap
          (fun r => ruleFindings r (splitLines code)) := by
  unfold quickPatternScanT
  rw [if_neg hcode]
  rw [foldl_if_flatMap (fun r => r.languages.contains (jsToLower language))
    (fun r => ruleFindings r (splitLines code)) table []]
  rfl

theorem ruleLineFinding_some (rule : PatternRule) (idx : Nat) (s : String)
    (f : Finding) (h : ruleLineFinding rule idx s = some f) :
    f.line = (idx : Int) + 1 ∧ f.type = rule.name := by
  unfold ruleLineFinding at h
  split at h
  · simp only [Option.some.injEq] at h
    subst h
    exact ⟨rfl, rfl⟩
  · exact absurd h (by simp)

theorem pairwise_fst_enumFrom {α : Type} (n : Nat) (l : List α) :
    (List.enumFrom n l).Pairwise (fun p q => p.1 < q.1) := by
  induction l generalizing n with
  | nil => simp
  | cons x xs ih =>
      rw [List.enumFrom_cons]
      refine List.Pairwise.cons ?_ (ih (n + 1))
      intro q hq
      obtain ⟨i, a⟩ := q
      have := (List.mem_enumFrom hq).1
      simpa using this

theorem ruleFindings_pairwise (rule : PatternRule) (lines : List String) :
    (ruleFindings rule lines).Pairwise (fun a b => a.line < b.line) := by
  unfold ruleFindings
  have hp : (lines.enum).Pairwise (fun p q => p.1 < q.1) :=
    pairwise_fst_enumFrom 0 lines
  refine List.Pairwise.filterMap _ ?_ hp
  intro p q hpq f hf g hg
  obtain ⟨hf1, _⟩ := ruleLineFinding_some _ _ _ _ hf
  obtain ⟨hg1, _⟩ := ruleLineFinding_some _ _ _ _ hg
  rw [hf1, hg1]
  omega

theorem ruleFindings_sig_nodup (rule : PatternRule) (lines : List String) :
    ((ruleFindings rule lines).map (fun f => (f.type, f.line))).Nodup := by
  have hp := ruleFindings_pairwise rule lines
  rw [List.Nodup, List.pairwise_map]
  refine hp.imp ?_
  intro a b hab
  intro he
  have : a.line = b.line := congrArg Prod.snd he
  omega

theorem ruleFindings_type (rule : PatternRule) (lines : List String)
    (f : Finding) (hf : f ∈ ruleFindings rule lines) : f.type = rule.name := by
  unfold ruleFindings at hf
  rw [List.mem_filterMap] at hf
  obtain ⟨p, _, hp⟩ := hf
  exact (ruleLineFinding_some _ _ _ _ hp).2

theorem scan_sig_nodup (rules : List PatternRule) (lines : List String)
    (hnames : (rules.map (fun r => r.name)).Nodup) :
    ((rules.flatMap (fun r => ruleFindings r lines)).map
        (fun f => (f.type, f.line))).Nodup := by
  induction rules with
  | nil => simp
  | cons r rs ih =>
      rw [List.map_cons, List.nodup_cons] at hnames
      rw [List.flatMap_cons, List.map_append, List.nodup_append]
      refine ⟨ruleFindings_sig_nodup r lines, ih hnames.2, ?_⟩
      intro sg hg1 hg2
      obtain ⟨f1, hf1, hs1⟩ := List.mem_map.mp hg1
      obtain ⟨f2, hf2, hs2⟩ := List.mem_map.mp hg2
      obtain ⟨r2, hr2, hf2m⟩ := List.mem_flatMap.mp hf2
      have e1 : f1.type = r.name := ruleFindings_type _ _ _ hf1
      have e2 : f2.type = r2.name := ruleFindings_type _ _ _ hf2m
      have : r.name = r2.name := by
        have := congrArg Prod.fst (hs1.trans hs2.symm)
        simpa [e1, e2] using this
      exact hnames.1 (this ▸ List.mem_map_of_mem (fun r => r.name) hr2)

/-- Claim C8 (amended): `quickPatternScan` of part_025 considers only
rules whose `languages` set contains the requested language, emits at
most one finding per rule per line (the first matching regex breaks), and
no two of its findings share a `(rule, line)` pair; its iteration is
rule-major, so findings come grouped by rule in table order, ascending by
line only within each rule, not globally (see the counterexample).  The
other cited implementation, `quickPatternScan` of `patterns.js`, matches
each regex against the whole code with no per-line loop and no break, so
one rule can emit several findings for the same line — it satisfies
neither the uniqueness nor the ordering clause, witnessed by the last
conjunct (two hardcodedSecrets regexes both fire on one line). -/
theorem quickPatternScan_structure (code language : String) (hcode : code ≠ "") :
    quickPatternScan code language
      = (SECURITY_PATTERNS.filter
            (fun r => r.languages.contains (jsToLower language))).flatMap
          (fun r => ruleFindings r (splitLines code))
    ∧ (∀ rule : PatternRule,
        (ruleFindings rule (splitLines code)).Pairwise (fun a b => a.line < b.line))
    ∧ ((quickPatternScan code language).map (fun f => (f.type, f.line))).Nodup
    ∧ ((PatternsJs.quickPatternScan
          "password: \"aaaaaaaa\", secret: \"bbbbbbbb\"" "javascript").map
          (fun f => (f.type, f.line))
        = [("Hardcoded Secret", 1), ("Hardcoded Secret", 1)]
      ∧ ¬ (((PatternsJs.quickPatternScan
          "password: \"aaaaaaaa\", secret: \"bbbbbbbb\"" "javascript").map
          (fun f => (f.type, f.line))).Nodup)) := by
  have hchar := quickPatternScanT_eq SECURITY_PATTERNS code language hcode
  refine ⟨hchar, fun rule => ruleFindings_pairwise rule _, ?_, by decide, by decide⟩
  rw [show quickPatternScan code language
      = quickPatternScanT SECURITY_PATTERNS code language from rfl, hchar]
  apply scan_sig_nodup
  have hsub : ((SECURITY_PATTERNS.filter
        (fun r => r.languages.contains (jsToLower language))).map
      (fun r => r.name)).Sublist (SECURITY_PATTERNS.map (fun r => r.name)) :=
    (List.filter_sublist _).map _
  exact (show (SECURITY_PATTERNS.map (fun r => r.name)).Nodup by decide).sublist hsub

/-- Witness for the amended claim C8 theorem at a concrete input. -/
theorem quickPatternScan_structure_witness :
    quickPatternScan "eval(x)" "javascript"
      = (SECURITY_PATTERNS.filter
            (fun r => r.languages.contains (jsToLower "javascript"))).flatMap
          (fun r => ruleFindings r (splitLines "eval(x)"))
    ∧ (∀ rule : PatternRule,
        (ruleFindings rule (splitLines "eval(x)")).Pairwise
          (fun a b => a.line < b.line))
    ∧ ((quickPatternScan "eval(x)" "javascript").map
        (fun f => (f.type, f.line))).Nodup
    ∧ ((PatternsJs.quickPatternScan
          "password: \"aaaaaaaa\", secret: \"bbbbbbbb\"" "javascript").map
          (fun f => (f.type, f.line))
        = [("Hardcoded Secret", 1), ("Hardcoded Secret", 1)]
      ∧ ¬ (((PatternsJs.quickPatternScan
          "password: \"aaaaaaaa\", secret: \"bbbbbbbb\"" "javascript").map
          (fun f => (f.type, f.line))).Nodup)) :=
  quickPatternScan_structure "eval(x)" "javascript" (by decide)

/-- Claim C8, counterexample: the engine iterates rule-major, so on a file
whose first line holds a hardcoded password and whose second line holds an
`eval` call, the RCE rule (first in the table) emits its finding for line
2 before the SECRET rule emits its finding for line 1 — the emitted list
is not in ascending line order. -/
theorem quickPatternScan_order_counterexample :
    ((quickPatternScan "password = \"abcdef\"\neval(x)" "javascript").map
        (fun f => f.line) = [2, 1])
    ∧ ¬ ((quickPatternScan "password = \"abcdef\"\neval(x)" "javascript").map
        (fun f => f.line)).Pairwise (fun a b => a ≤ b) := by
  constructor
  · decide
  · decide
